import Mathlib

/-!
Shallow embedding of the educational-content frontend (React client) and of
the spec-level contracts it consumes.

The chat client (`ChatTab`) is embedded as a pure state-transition system:
`ChatState` carries the React component state (`messages`, `messageInput`,
`isSending`, `isPolling`, `debugInfo`, plus whether a session is selected),
`pollTick` is the body of the `setInterval` callback installed by
`startPolling`, and `sendMessage` is the send handler, parameterised by the
outcome of the HTTP POST.
-/

/-- JS `String.prototype.trim`: strip leading and trailing whitespace
(embedded structurally over the character list so that it evaluates). -/
def jsTrim (s : String) : String :=
  ⟨((s.data.dropWhile Char.isWhitespace).reverse.dropWhile Char.isWhitespace).reverse⟩

/-- JS `String.prototype.toLowerCase` (ASCII case folding). -/
def jsToLower (s : String) : String :=
  ⟨s.data.map Char.toLower⟩

/-- Split a character list at every occurrence of `sep`; the empty list
splits to one empty field, as in JS `"".split(sep)`. -/
def splitOnChar (sep : Char) : List Char → List (List Char)
  | [] => [[]]
  | c :: cs =>
    let r := splitOnChar sep cs
    if c = sep then [] :: r
    else
      match r with
      | [] => [[c]]
      | h :: t => (c :: h) :: t

/-- JS `String.prototype.split('.')`. -/
def jsSplitOnDot (s : String) : List String :=
  (splitOnChar '.' s.data).map (fun l => ⟨l⟩)

/-- Re-join with `.` what `jsSplitOnDot` separated (JS `Array.join('.')`). -/
def joinWithDot : List String → String
  | [] => ""
  | [p] => p
  | p :: q :: rest => p ++ "." ++ joinWithDot (q :: rest)

/-- A chat message as handled by the client (`role` is a plain string in the
source; messages built by the client use `Date.now()` as `id`). -/
structure Message where
  id : Nat
  role : String
  content : String
  timestamp : String
deriving DecidableEq, Repr

/-- The `query_analysis` part of a debug trace, as consumed by
`DebugToolbar`. Fields the component guards with presence checks are
`Option`s. -/
structure QueryAnalysis where
  original_query : String
  extracted_keywords : Option (List String)
  embedding_model : String
  search_time_ms : Nat
  keyword_search_time_ms : Option Nat
  vector_search_time_ms : Option Nat
  total_indexed_contents : Nat
  error : Option String
deriving DecidableEq, Repr

/-- Debug trace payload attached to a messages response
(`response.data.debug_info`). -/
structure DebugInfo where
  query_analysis : Option QueryAnalysis
deriving DecidableEq, Repr

/-- The `ChatTab` component state relevant to sending and polling. -/
structure ChatState where
  messages : List Message
  messageInput : String
  isSending : Bool
  isPolling : Bool
  debugInfo : Option DebugInfo
  hasSession : Bool
deriving DecidableEq, Repr

/-- Outcome of one GET of the session's message list: the request either
errors or yields the message list plus an optional debug trace. -/
inductive PollResponse where
  | error : PollResponse
  | ok : List Message → Option DebugInfo → PollResponse
deriving DecidableEq, Repr

/-- One execution of the interval callback installed by `startPolling`
(ChatTab lines 149-177): on error, state is unchanged and polling continues;
otherwise, if the last message of the returned list has role `assistant`,
the messages are displayed, the debug trace (when present) is stored, and
polling stops (`stopPolling`); in every other case the messages are
displayed and polling continues. -/
def pollTick (s : ChatState) (r : PollResponse) : ChatState :=
  match r with
  | PollResponse.error => s
  | PollResponse.ok newMessages dbg =>
    match newMessages.getLast? with
    | some lastMessage =>
      if lastMessage.role = "assistant" then
        { s with messages := newMessages,
                 debugInfo := match dbg with
                   | some d => some d
                   | none => s.debugInfo,
                 isPolling := false }
      else
        { s with messages := newMessages }
    | none => { s with messages := newMessages }

/-- The polling loop run over a finite prefix of poll outcomes. -/
def pollTrace (s : ChatState) (rs : List PollResponse) : ChatState :=
  rs.foldl pollTick s

/-- A poll outcome that does not satisfy the client's stop condition:
either the request errored, or the returned list does not end in an
assistant message. -/
def keepsPolling : PollResponse → Bool
  | PollResponse.error => true
  | PollResponse.ok msgs _ =>
    match msgs.getLast? with
    | some m => m.role != "assistant"
    | none => true

lemma pollTick_keeps (s : ChatState) (r : PollResponse)
    (h : keepsPolling r = true) (hp : s.isPolling = true) :
    (pollTick s r).isPolling = true := by
  cases r with
  | error => simpa [pollTick] using hp
  | ok msgs dbg =>
    cases hl : msgs.getLast? with
    | none => simpa [pollTick, hl] using hp
    | some m =>
      have hr : ¬ m.role = "assistant" := by
        simpa [keepsPolling, hl] using h
      simpa [pollTick, hl, hr] using hp

lemma pollTrace_keeps (rs : List PollResponse) :
    ∀ s : ChatState, s.isPolling = true →
      (∀ r ∈ rs, keepsPolling r = true) →
      (pollTrace s rs).isPolling = true := by
  induction rs with
  | nil => intro s hp _; simpa [pollTrace] using hp
  | cons r rs ih =>
    intro s hp hall
    have h1 : (pollTick s r).isPolling = true :=
      pollTick_keeps s r (hall r (List.mem_cons_self r rs)) hp
    have h2 : ∀ x ∈ rs, keepsPolling x = true :=
      fun x hx => hall x (List.mem_cons_of_mem r hx)
    simpa [pollTrace] using ih (pollTick s r) h1 h2

/-- The temporary user message built by `sendMessage` before the POST
(`id: Date.now()` is passed in as `now`, the timestamp string as `ts`). -/
def mkTempUserMessage (text : String) (now : Nat) (ts : String) : Message :=
  { id := now, role := "user", content := text, timestamp := ts }

/-- Payload of a successful POST response. The client only uses it as an
acknowledgement; the payload itself is never read. -/
structure PostResponse where
  data : List Message
deriving DecidableEq, Repr

/-- Outcome of the POST issued by `sendMessage`. -/
inductive PostOutcome where
  | success : PostResponse → PostOutcome
  | failure : PostOutcome
deriving DecidableEq, Repr

/-- The synchronous part of `sendMessage` (ChatTab lines 189-202), run
before the POST resolves: clear the input, set `isSending`, and append the
temporary user message built from the trimmed input. -/
def sendMessageOptimistic (s : ChatState) (now : Nat) (ts : String) : ChatState :=
  { s with messageInput := "",
           isSending := true,
           messages := s.messages ++ [mkTempUserMessage (jsTrim s.messageInput) now ts] }

/-- Resolution of `sendMessage` (ChatTab lines 204-226): on success start
polling; on failure remove every message whose id equals the temporary
message's id (`Date.now()`); either way clear `isSending`. -/
def sendMessageComplete (s : ChatState) (now : Nat) (outcome : PostOutcome) : ChatState :=
  match outcome with
  | PostOutcome.success _ => { s with isPolling := true, isSending := false }
  | PostOutcome.failure =>
    { s with messages := s.messages.filter (fun msg => msg.id != now),
             isSending := false }

/-- The whole `sendMessage` handler: the guard
`(!messageInput.trim() || !currentSession || isSending)` returns early;
otherwise the optimistic append happens first and the POST outcome is then
applied. -/
def sendMessage (s : ChatState) (now : Nat) (ts : String) (outcome : PostOutcome) :
    ChatState :=
  if jsTrim s.messageInput = "" ∨ s.hasSession = false ∨ s.isSending = true then s
  else sendMessageComplete (sendMessageOptimistic s now ts) now outcome

/-- Server-side message store of one chat session, together with the debug
trace the messages response may carry. -/
structure ServerState where
  messages : List Message
  debug : Option DebugInfo
deriving DecidableEq, Repr

/-- Modelled from the spec: the Gateway's `Get session messages` read
endpoint ("Get session messages → ordered by timestamp ascending; includes
optional debug trace"; "reading twice must not mutate state"). The backend
service is not part of the frontend sources, so the read is modelled as a
pure lookup that leaves the server state unchanged. -/
def getSessionMessages (srv : ServerState) :
    ServerState × List Message × Option DebugInfo :=
  (srv, srv.messages, srv.debug)

/-- One client poll against the server: GET the session's messages and run
the interval callback on the response. -/
def pollRead (srv : ServerState) (s : ChatState) : ServerState × ChatState :=
  let res := getSessionMessages srv
  (res.1, pollTick s (PollResponse.ok res.2.1 res.2.2))

/-- A Content record as the frontend consumes it (LibraryTab/ContentItem). -/
structure Content where
  id : Nat
  name : String
  content : String
  processed : Bool
  difficulty_level : Option String
  key_concepts : List String
  estimated_study_time : Option Int
  created_at : String
deriving DecidableEq, Repr

/-- The analysis status text displayed by `ContentItem` (lines 64-76): the
whole observable status is derived from the boolean `processed` flag. -/
def contentStatusText (c : Content) : String :=
  if c.processed then "Analyzed" else "Analyzing..."

/-- The status filter of `LibraryTab.filterContents` (lines 73-83): only
the two values `processed` and `processing` select anything; both test the
boolean `processed` flag. -/
def statusFilterMatches (status : String) (c : Content) : Bool :=
  if status = "processed" then c.processed
  else if status = "processing" then !c.processed
  else true

/-- Case-insensitive deduplication keeping the first occurrence, in order:
`seen` accumulates the lower-cased concepts already kept. -/
def dedupeConceptsAux (seen : List String) : List String → List String
  | [] => []
  | x :: xs =>
    if jsToLower x ∈ seen then dedupeConceptsAux seen xs
    else x :: dedupeConceptsAux (jsToLower x :: seen) xs

/-- Modelled from the spec: the Analysis Worker's key-concept extraction
("key-concept extraction (capped at 5 concepts, deduplicated, order =
relevance as returned by the extractor)"; duplicates are compared
case-insensitively per §8). The worker itself is a backend service absent
from the frontend sources. -/
def extractKeyConcepts (raw : List String) : List String :=
  (dedupeConceptsAux [] raw).take 5

/-- One rendered line of the `Query Analysis` debug section. -/
inductive DebugItem where
  | originalQuery : String → DebugItem
  | keywords : List String → DebugItem
  | embeddingModel : String → DebugItem
  | totalSearchTime : Nat → DebugItem
  | keywordSearchTime : Nat → DebugItem
  | vectorSearchTime : Nat → DebugItem
  | totalIndexed : Nat → DebugItem
  | errorNote : String → DebugItem
deriving DecidableEq, Repr

/-- The `Query Analysis` section of `DebugToolbar` (lines 102-137): the
keyword list renders only when present and non-empty, the keyword and
vector timings only when not `undefined`, the error note only when truthy
(a non-empty string); the remaining lines always render. -/
def renderQueryAnalysis (qa : QueryAnalysis) : List DebugItem :=
  [DebugItem.originalQuery qa.original_query]
  ++ (match qa.extracted_keywords with
      | some ks => if ks.length > 0 then [DebugItem.keywords ks] else []
      | none => [])
  ++ [DebugItem.embeddingModel qa.embedding_model,
      DebugItem.totalSearchTime qa.search_time_ms]
  ++ (match qa.keyword_search_time_ms with
      | some t => [DebugItem.keywordSearchTime t]
      | none => [])
  ++ (match qa.vector_search_time_ms with
      | some t => [DebugItem.vectorSearchTime t]
      | none => [])
  ++ [DebugItem.totalIndexed qa.total_indexed_contents]
  ++ (match qa.error with
      | some e => if e = "" then [] else [DebugItem.errorNote e]
      | none => [])

/-- A file as handed to `handleFileSelect` (`content` stands for the text a
`FileReader.readAsText` would produce). -/
structure JsFile where
  name : String
  size : Nat
  content : String
deriving DecidableEq, Repr

/-- The upload form state of `UploadTab`. -/
structure UploadForm where
  name : String
  content : String
deriving DecidableEq, Repr

/-- `allowedTypes` of `UploadTab.handleFileSelect`. -/
def allowedUploadTypes : List String := [".txt", ".md"]

/-- `maxSize` of `UploadTab.handleFileSelect` (10MB in bytes). -/
def maxUploadBytes : Nat := 10 * 1024 * 1024

/-- The extension computed by `handleFileSelect`:
`'.' + file.name.split('.').pop().toLowerCase()`. -/
def fileExtension (fileName : String) : String :=
  "." ++ jsToLower ((jsSplitOnDot fileName).getLastD "")

/-- The JS `file.name.replace(/\.[^/.]+$/, "")` used to auto-fill the form
name: drop a final dot-extension when the part after the last dot is
non-empty and contains no slash; otherwise keep the name unchanged. -/
def stripLastExtension (fileName : String) : String :=
  match jsSplitOnDot fileName with
  | [] => fileName
  | [_] => fileName
  | p :: q :: rest =>
    let parts := p :: q :: rest
    let lst := parts.getLastD ""
    if lst = "" then fileName
    else if lst.data.contains '/' then fileName
    else joinWithDot parts.dropLast

/-- `UploadTab.handleFileSelect` (lines 22-56): reject a file whose
extension is not `.txt`/`.md` or whose size exceeds 10MB, leaving the form
untouched and never reading the file (second component `false`); otherwise
read the file and fill the form, auto-filling the name from the file name
only when the form name is empty. -/
def handleFileSelect (file : JsFile) (fd : UploadForm) : UploadForm × Bool :=
  if fileExtension file.name ∉ allowedUploadTypes then (fd, false)
  else if file.size > maxUploadBytes then (fd, false)
  else ({ name := if fd.name = "" then stripLastExtension file.name else fd.name,
          content := file.content }, true)

/-- `helpers.formatStudyTime` (helpers.js lines 134-149); `none` stands for
the JS `null`/`undefined` argument. -/
def formatStudyTime : Option Int → String
  | none => "TBD"
  | some minutes =>
    if minutes = 0 then "TBD"
    else if minutes < 60 then toString minutes ++ " min"
    else
      let hours := minutes / 60
      let remainingMinutes := minutes % 60
      if remainingMinutes = 0 then toString hours ++ "h"
      else toString hours ++ "h " ++ toString remainingMinutes ++ "m"

/-- C1: after a chat message is sent, each tick of the polling loop reads
the session's message list; the tick stops polling exactly when the newest
(last) message of the returned list has role `assistant`, and on every
successful poll whose last message does not have role `assistant` it
updates the displayed messages and keeps polling. -/
theorem pollTick_stops_iff_assistant (s : ChatState) (msgs : List Message)
    (dbg : Option DebugInfo) (hp : s.isPolling = true) :
    ((pollTick s (PollResponse.ok msgs dbg)).isPolling = false ↔
        ∃ m, msgs.getLast? = some m ∧ m.role = "assistant")
    ∧ ((∀ m, msgs.getLast? = some m → m.role ≠ "assistant") →
        (pollTick s (PollResponse.ok msgs dbg)).messages = msgs
        ∧ (pollTick s (PollResponse.ok msgs dbg)).isPolling = true)
    ∧ (∀ m, msgs.getLast? = some m → m.role = "assistant" →
        (pollTick s (PollResponse.ok msgs dbg)).messages = msgs
        ∧ (pollTick s (PollResponse.ok msgs dbg)).isPolling = false) := by
  cases hl : msgs.getLast? with
  | none => simp [pollTick, hl, hp]
  | some m =>
    by_cases hr : m.role = "assistant"
    · simp [pollTick, hl, hr, hp]
    · simp [pollTick, hl, hr, hp]

/-- Witness for C1 at two concrete polls: one ending in an assistant
message (polling stops) and one ending in a user message (messages shown,
polling continues). -/
theorem pollTick_stops_iff_assistant_witness :
    (pollTick (⟨[], "", false, true, none, true⟩ : ChatState)
        (PollResponse.ok [⟨2, "assistant", "hi", "t"⟩] none)).isPolling = false
    ∧ (pollTick (⟨[], "", false, true, none, true⟩ : ChatState)
        (PollResponse.ok [⟨1, "user", "q", "t"⟩] none)).messages
      = [⟨1, "user", "q", "t"⟩] := by
  constructor
  · exact (pollTick_stops_iff_assistant _ [⟨2, "assistant", "hi", "t"⟩] none rfl).1.mpr
      ⟨⟨2, "assistant", "hi", "t"⟩, rfl, rfl⟩
  · exact ((pollTick_stops_iff_assistant _ [⟨1, "user", "q", "t"⟩] none rfl).2.1
      (fun m hm => by cases hm; decide)).1

/-- C2 fails on the code: `startPolling` has no maximum poll duration and
its catch clause deliberately keeps polling on request errors, so the loop
never gives up and the component has no "still processing" give-up state
at all. Evaluation at the failing input: after 3600 consecutive erroring
polls (an hour at the 1-second interval) the client is still polling. -/
theorem pollTrace_never_gives_up :
    (pollTrace (⟨[⟨1, "user", "q", "t"⟩], "", false, true, none, true⟩ : ChatState)
        (List.replicate 3600 PollResponse.error)).isPolling = true := by
  refine pollTrace_keeps _ _ rfl ?_
  intro r hr
  rw [List.eq_of_mem_replicate hr]
  rfl

/-- C3: `sendMessage` appends the user message synchronously (it is in the
displayed list already in the optimistic state, before the POST resolves),
and on success the displayed list still equals that optimistic append for
every response payload — the POST response is a mere acknowledgement, the
assistant's reply is only ever obtained by the polling that is started. -/
theorem sendMessage_sync_append_ack_only (s : ChatState) (now : Nat) (ts : String)
    (h1 : jsTrim s.messageInput ≠ "") (h2 : s.hasSession = true)
    (h3 : s.isSending = false) :
    (sendMessageOptimistic s now ts).messages
        = s.messages ++ [mkTempUserMessage (jsTrim s.messageInput) now ts]
    ∧ (∀ resp : PostResponse,
        (sendMessage s now ts (PostOutcome.success resp)).messages
            = s.messages ++ [mkTempUserMessage (jsTrim s.messageInput) now ts]
        ∧ (sendMessage s now ts (PostOutcome.success resp)).isPolling = true)
    ∧ (∀ r1 r2 : PostResponse,
        sendMessage s now ts (PostOutcome.success r1)
          = sendMessage s now ts (PostOutcome.success r2)) := by
  have hg : ¬ (jsTrim s.messageInput = "" ∨ s.hasSession = false ∨ s.isSending = true) := by
    simp [h1, h2, h3]
  refine ⟨rfl, ?_, ?_⟩
  · intro resp
    simp [sendMessage, hg, sendMessageComplete, sendMessageOptimistic]
  · intro r1 r2
    simp [sendMessage, hg, sendMessageComplete]

/-- Witness for C3: a concrete send whose POST response even carries an
assistant message; the displayed list still only gains the user message,
and polling starts. -/
theorem sendMessage_sync_append_ack_only_witness :
    (sendMessage (⟨[], "hello", false, false, none, true⟩ : ChatState) 7 "t1"
        (PostOutcome.success ⟨[⟨99, "assistant", "ignored", "t2"⟩]⟩)).messages
      = [mkTempUserMessage (jsTrim "hello") 7 "t1"]
    ∧ (sendMessage (⟨[], "hello", false, false, none, true⟩ : ChatState) 7 "t1"
        (PostOutcome.success ⟨[⟨99, "assistant", "ignored", "t2"⟩]⟩)).isPolling = true :=
  (sendMessage_sync_append_ack_only _ 7 "t1" (by decide) rfl rfl).2.1
    ⟨[⟨99, "assistant", "ignored", "t2"⟩]⟩

/-- C8 (amended): a failed send rolls the displayed list back to its
pre-send state and starts no polling, provided no message already displayed
has id equal to the temporary id `Date.now()`; the rollback filters by that
id, so an id collision would also delete the colliding older message. -/
theorem sendMessage_failure_restores_messages (s : ChatState) (now : Nat) (ts : String)
    (h1 : jsTrim s.messageInput ≠ "") (h2 : s.hasSession = true)
    (h3 : s.isSending = false) (hfresh : ∀ m ∈ s.messages, m.id ≠ now) :
    (sendMessage s now ts PostOutcome.failure).messages = s.messages
    ∧ (sendMessage s now ts PostOutcome.failure).isPolling = s.isPolling := by
  have hg : ¬ (jsTrim s.messageInput = "" ∨ s.hasSession = false ∨ s.isSending = true) := by
    simp [h1, h2, h3]
  constructor
  · simp only [sendMessage, hg, if_false, sendMessageComplete, sendMessageOptimistic,
      List.filter_append]
    have htemp : List.filter (fun msg => msg.id != now)
        [mkTempUserMessage (jsTrim s.messageInput) now ts] = [] := by
      simp [mkTempUserMessage]
    rw [htemp, List.append_nil]
    refine List.filter_eq_self.mpr ?_
    intro m hm
    simpa using hfresh m hm
  · simp [sendMessage, hg, sendMessageComplete, sendMessageOptimistic]

/-- Witness for C8's amended theorem: a failed send at a fresh temporary id
leaves the single pre-existing message in place, with no polling. -/
theorem sendMessage_failure_restores_messages_witness :
    (sendMessage (⟨[⟨1, "user", "old", "t0"⟩], "x", false, false, none, true⟩ : ChatState)
        7 "t1" PostOutcome.failure).messages = [⟨1, "user", "old", "t0"⟩]
    ∧ (sendMessage (⟨[⟨1, "user", "old", "t0"⟩], "x", false, false, none, true⟩ : ChatState)
        7 "t1" PostOutcome.failure).isPolling = false :=
  sendMessage_failure_restores_messages _ 7 "t1" (by decide) rfl rfl (by decide)

/-- Counterexample to C8 as stated: when the temporary id (`Date.now()`)
collides with the id of a message already displayed, the rollback deletes
that older message too, so after the failed send the list is empty instead
of equal to its pre-send state `[⟨42, "user", "hello", "t0"⟩]`. -/
theorem sendMessage_failure_collision :
    (sendMessage (⟨[⟨42, "user", "hello", "t0"⟩], "again", false, false, none, true⟩ :
        ChatState) 42 "t1" PostOutcome.failure).messages = []
    ∧ ([⟨42, "user", "hello", "t0"⟩] : List Message) ≠ [] := by
  constructor
  · decide
  · decide

lemma pollTick_idem (s : ChatState) (msgs : List Message) (dbg : Option DebugInfo) :
    pollTick (pollTick s (PollResponse.ok msgs dbg)) (PollResponse.ok msgs dbg)
      = pollTick s (PollResponse.ok msgs dbg) := by
  cases hl : msgs.getLast? with
  | none => simp [pollTick, hl]
  | some m =>
    by_cases hr : m.role = "assistant"
    · cases dbg with
      | none => simp [pollTick, hl, hr]
      | some d => simp [pollTick, hl, hr]
    · simp [pollTick, hl, hr]

/-- C4: polling a session's message list without posting is idempotent and
non-mutating — a poll leaves the server state unchanged, polling the same
server state twice yields the very client state the first poll produced,
and a poll that observes the intermediate state where only the user message
is present simply displays it and keeps polling. -/
theorem pollRead_idempotent_nonmutating (srv : ServerState) (s : ChatState) :
    (pollRead srv s).1 = srv
    ∧ (pollRead srv (pollRead srv s).2).2 = (pollRead srv s).2
    ∧ (∀ m, srv.messages.getLast? = some m → m.role = "user" →
        s.isPolling = true →
        (pollRead srv s).2.messages = srv.messages
        ∧ (pollRead srv s).2.isPolling = true) := by
  refine ⟨rfl, ?_, ?_⟩
  · exact pollTick_idem s srv.messages srv.debug
  · intro m hl hrole hp
    have hr : ¬ m.role = "assistant" := by
      rw [hrole]; decide
    constructor
    · simp [pollRead, getSessionMessages, pollTick, hl, hr]
    · simp [pollRead, getSessionMessages, pollTick, hl, hr, hp]

/-- Witness for C4: a concrete session holding only the user's own message;
the poll leaves the server untouched, is stable under repetition, and the
client keeps polling while displaying the user message. -/
theorem pollRead_idempotent_nonmutating_witness :
    (pollRead (⟨[⟨1, "user", "q", "t"⟩], none⟩ : ServerState)
        (⟨[], "", false, true, none, true⟩ : ChatState)).1
      = (⟨[⟨1, "user", "q", "t"⟩], none⟩ : ServerState)
    ∧ (pollRead (⟨[⟨1, "user", "q", "t"⟩], none⟩ : ServerState)
        (pollRead (⟨[⟨1, "user", "q", "t"⟩], none⟩ : ServerState)
          (⟨[], "", false, true, none, true⟩ : ChatState)).2).2
      = (pollRead (⟨[⟨1, "user", "q", "t"⟩], none⟩ : ServerState)
          (⟨[], "", false, true, none, true⟩ : ChatState)).2
    ∧ (pollRead (⟨[⟨1, "user", "q", "t"⟩], none⟩ : ServerState)
        (⟨[], "", false, true, none, true⟩ : ChatState)).2.messages
      = [⟨1, "user", "q", "t"⟩]
    ∧ (pollRead (⟨[⟨1, "user", "q", "t"⟩], none⟩ : ServerState)
        (⟨[], "", false, true, none, true⟩ : ChatState)).2.isPolling = true := by
  obtain ⟨h1, h2, h3⟩ := pollRead_idempotent_nonmutating
    (⟨[⟨1, "user", "q", "t"⟩], none⟩ : ServerState)
    (⟨[], "", false, true, none, true⟩ : ChatState)
  obtain ⟨h4, h5⟩ := h3 ⟨1, "user", "q", "t"⟩ rfl rfl rfl
  exact ⟨h1, h2, h4, h5⟩

/-- C5 (amended): the client-observable analysis status is derived solely
from the boolean `processed` flag and takes exactly two values —
`Analyzed` when processed and `Analyzing...` otherwise — and the library
status filter likewise only distinguishes processed from not processed; no
third `failed` value is observable, so a permanently failed analysis is
indistinguishable to the client from one still processing. -/
theorem contentStatus_two_valued (c : Content) :
    (contentStatusText c = "Analyzed" ∨ contentStatusText c = "Analyzing...")
    ∧ (c.processed = true → contentStatusText c = "Analyzed")
    ∧ (c.processed = false → contentStatusText c = "Analyzing...")
    ∧ (∀ c2 : Content, c.processed = c2.processed →
        contentStatusText c = contentStatusText c2)
    ∧ statusFilterMatches "processed" c = c.processed
    ∧ statusFilterMatches "processing" c = !c.processed := by
  refine ⟨?_, ?_, ?_, ?_, ?_, ?_⟩
  · by_cases h : c.processed <;> simp [contentStatusText, h]
  · intro h; simp [contentStatusText, h]
  · intro h; simp [contentStatusText, h]
  · intro c2 h; simp [contentStatusText, h]
  · simp [statusFilterMatches]
  · simp [statusFilterMatches]

/-- Witness for C5's amended theorem at a concrete unprocessed content. -/
theorem contentStatus_two_valued_witness :
    contentStatusText (⟨1, "doc", "text", false, none, [], none, "t"⟩ : Content)
      = "Analyzing..."
    ∧ statusFilterMatches "processing"
        (⟨1, "doc", "text", false, none, [], none, "t"⟩ : Content) = true :=
  ⟨(contentStatus_two_valued (⟨1, "doc", "text", false, none, [], none, "t"⟩ :
      Content)).2.2.1 rfl,
   (contentStatus_two_valued (⟨1, "doc", "text", false, none, [], none, "t"⟩ :
      Content)).2.2.2.2.2⟩

/-- Counterexample to C5 as stated: a Content whose analysis permanently
failed (it stays `processed = false` forever per the retry-ceiling design)
is rendered with the very same status text as one still processing, and
that text is `Analyzing...` — the client never observes a `failed` (nor a
literal `processing`/`completed`) status value. -/
theorem contentStatus_failed_indistinguishable :
    contentStatusText
        (⟨1, "permanently failed doc", "x", false, none, [], none, "t"⟩ : Content)
      = contentStatusText
        (⟨2, "still processing doc", "y", false, none, [], none, "t"⟩ : Content)
    ∧ contentStatusText
        (⟨1, "permanently failed doc", "x", false, none, [], none, "t"⟩ : Content)
      ≠ "failed"
    ∧ contentStatusText
        (⟨1, "permanently failed doc", "x", false, none, [], none, "t"⟩ : Content)
      ≠ "processing" := by
  refine ⟨rfl, ?_, ?_⟩ <;> decide

lemma dedupeConceptsAux_spec (l : List String) :
    ∀ seen : List String,
      ((dedupeConceptsAux seen l).map jsToLower).Nodup
      ∧ ∀ y ∈ (dedupeConceptsAux seen l).map jsToLower, y ∉ seen := by
  induction l with
  | nil => intro seen; exact ⟨by simp [dedupeConceptsAux], by simp [dedupeConceptsAux]⟩
  | cons x xs ih =>
    intro seen
    by_cases h : jsToLower x ∈ seen
    · refine ⟨?_, ?_⟩
      · simpa [dedupeConceptsAux, h] using (ih seen).1
      · intro y hy
        refine (ih seen).2 y ?_
        simpa [dedupeConceptsAux, h] using hy
    · have h2 := ih (jsToLower x :: seen)
      refine ⟨?_, ?_⟩
      · simp only [dedupeConceptsAux, if_neg h, List.map_cons, List.nodup_cons]
        refine ⟨fun hmem => (h2.2 _ hmem) (List.mem_cons_self _ _), h2.1⟩
      · intro y hy
        simp only [dedupeConceptsAux, if_neg h, List.map_cons, List.mem_cons] at hy
        rcases hy with rfl | hy
        · exact h
        · exact fun hseen => (h2.2 y hy) (List.mem_cons_of_mem _ hseen)

/-- C6: the key-concepts list produced by analysis has length at most 5 and
contains no two entries that coincide case-insensitively. -/
theorem extractKeyConcepts_le_five_nodup (raw : List String) :
    (extractKeyConcepts raw).length ≤ 5
    ∧ ((extractKeyConcepts raw).map jsToLower).Nodup := by
  constructor
  · simp only [extractKeyConcepts, List.length_take]
    omega
  · have h := (dedupeConceptsAux_spec raw []).1
    have hsub : List.Sublist ((extractKeyConcepts raw).map jsToLower)
        ((dedupeConceptsAux [] raw).map jsToLower) :=
      List.Sublist.map jsToLower (List.take_sublist 5 _)
    exact List.Nodup.sublist hsub h

/-- C7: rendering the query-analysis debug section is a total function that
simply omits the keyword-search timing, the vector-search timing, or the
error note whenever the corresponding field is absent, while the section
itself (its always-present lines, e.g. the original query) still renders. -/
theorem renderQueryAnalysis_omits_absent (qa : QueryAnalysis) :
    (qa.keyword_search_time_ms = none →
        ∀ t, DebugItem.keywordSearchTime t ∉ renderQueryAnalysis qa)
    ∧ (qa.vector_search_time_ms = none →
        ∀ t, DebugItem.vectorSearchTime t ∉ renderQueryAnalysis qa)
    ∧ (qa.error = none → ∀ e, DebugItem.errorNote e ∉ renderQueryAnalysis qa)
    ∧ DebugItem.originalQuery qa.original_query ∈ renderQueryAnalysis qa := by
  refine ⟨?_, ?_, ?_, ?_⟩
  · intro h t
    rcases hek : qa.extracted_keywords with _ | ks <;>
      rcases he : qa.error with _ | er <;>
        rcases hv : qa.vector_search_time_ms with _ | tv <;>
          simp [renderQueryAnalysis, h, hek, he, hv]
  · intro h t
    rcases hek : qa.extracted_keywords with _ | ks <;>
      rcases he : qa.error with _ | er <;>
        rcases hk : qa.keyword_search_time_ms with _ | tk <;>
          simp [renderQueryAnalysis, h, hek, he, hk]
  · intro h e
    rcases hek : qa.extracted_keywords with _ | ks <;>
      rcases hk : qa.keyword_search_time_ms with _ | tk <;>
        rcases hv : qa.vector_search_time_ms with _ | tv <;>
          simp [renderQueryAnalysis, h, hek, hk, hv]
  · simp [renderQueryAnalysis]

/-- Witness for C7: a debug trace where one retrieval path was unavailable
and no timings or error were recorded; the three optional lines are absent
and the section still renders the original query. -/
theorem renderQueryAnalysis_omits_absent_witness :
    DebugItem.keywordSearchTime 5 ∉ renderQueryAnalysis
        (⟨"what is ML", none, "text-embedding", 12, none, none, 3, none⟩ : QueryAnalysis)
    ∧ DebugItem.vectorSearchTime 5 ∉ renderQueryAnalysis
        (⟨"what is ML", none, "text-embedding", 12, none, none, 3, none⟩ : QueryAnalysis)
    ∧ DebugItem.errorNote "boom" ∉ renderQueryAnalysis
        (⟨"what is ML", none, "text-embedding", 12, none, none, 3, none⟩ : QueryAnalysis)
    ∧ DebugItem.originalQuery "what is ML" ∈ renderQueryAnalysis
        (⟨"what is ML", none, "text-embedding", 12, none, none, 3, none⟩ : QueryAnalysis) := by
  obtain ⟨h1, h2, h3, h4⟩ := renderQueryAnalysis_omits_absent
    (⟨"what is ML", none, "text-embedding", 12, none, none, 3, none⟩ : QueryAnalysis)
  exact ⟨h1 rfl 5, h2 rfl 5, h3 rfl "boom", h4⟩

/-- C9: file selection accepts a file only if its lower-cased extension is
`.txt` or `.md` and its size is at most `10 * 1024 * 1024` bytes; for every
file violating either condition the form data is returned unchanged and the
file is never read (acceptance flag `false`). -/
theorem handleFileSelect_validates (file : JsFile) (fd : UploadForm) :
    ((handleFileSelect file fd).2 = true →
        (fileExtension file.name = ".txt" ∨ fileExtension file.name = ".md")
        ∧ file.size ≤ maxUploadBytes)
    ∧ (¬ (fileExtension file.name = ".txt" ∨ fileExtension file.name = ".md") →
        handleFileSelect file fd = (fd, false))
    ∧ (file.size > maxUploadBytes → handleFileSelect file fd = (fd, false)) := by
  by_cases hx : fileExtension file.name ∈ allowedUploadTypes
  · by_cases hs : file.size > maxUploadBytes
    · refine ⟨?_, ?_, ?_⟩
      · intro h; exfalso; simp [handleFileSelect, hx, hs] at h
      · intro h; exact absurd (by simpa [allowedUploadTypes] using hx) h
      · intro _; simp [handleFileSelect, hx, hs]
    · refine ⟨?_, ?_, ?_⟩
      · intro _
        exact ⟨by simpa [allowedUploadTypes] using hx, Nat.le_of_not_lt hs⟩
      · intro h; exact absurd (by simpa [allowedUploadTypes] using hx) h
      · intro h; exact absurd h hs
  · refine ⟨?_, ?_, ?_⟩
    · intro h; exfalso; simp [handleFileSelect, hx] at h
    · intro _; simp [handleFileSelect, hx]
    · intro _; simp [handleFileSelect, hx]

/-- Witness for C9: a file with a disallowed extension and a `.txt` file one
byte over the 10MB limit are both rejected with the form left unchanged. -/
theorem handleFileSelect_validates_witness :
    handleFileSelect (⟨"virus.exe", 3, "payload"⟩ : JsFile) (⟨"n", "c"⟩ : UploadForm)
      = ((⟨"n", "c"⟩ : UploadForm), false)
    ∧ handleFileSelect (⟨"big.txt", 10485761, "x"⟩ : JsFile) (⟨"n", "c"⟩ : UploadForm)
      = ((⟨"n", "c"⟩ : UploadForm), false) := by
  constructor
  · exact (handleFileSelect_validates (⟨"virus.exe", 3, "payload"⟩ : JsFile)
      (⟨"n", "c"⟩ : UploadForm)).2.1 (by decide)
  · exact (handleFileSelect_validates (⟨"big.txt", 10485761, "x"⟩ : JsFile)
      (⟨"n", "c"⟩ : UploadForm)).2.2 (by decide)

/-- C10: `formatStudyTime` decomposes its minute argument faithfully —
`TBD` for `none` (JS `null`/`undefined`) and `0`, `"<m> min"` for
`1 ≤ m < 60`, and for `m ≥ 60` with `h = m div 60`, `r = m mod 60` it
returns `"<h>h"` when `r = 0` and `"<h>h <r>m"` otherwise, where
`h * 60 + r = m`. -/
theorem formatStudyTime_decomposition :
    formatStudyTime none = "TBD"
    ∧ formatStudyTime (some 0) = "TBD"
    ∧ (∀ m : Int, 1 ≤ m → m < 60 →
        formatStudyTime (some m) = toString m ++ " min")
    ∧ (∀ m : Int, 60 ≤ m →
        (m / 60) * 60 + m % 60 = m
        ∧ (m % 60 = 0 →
            formatStudyTime (some m) = toString (m / 60) ++ "h")
        ∧ (m % 60 ≠ 0 →
            formatStudyTime (some m)
              = toString (m / 60) ++ "h " ++ toString (m % 60) ++ "m")) := by
  refine ⟨rfl, rfl, ?_, ?_⟩
  · intro m h1 h2
    have h0 : ¬ m = 0 := by omega
    simp [formatStudyTime, h0, h2]
  · intro m h60
    have h0 : ¬ m = 0 := by omega
    have hlt : ¬ m < 60 := by omega
    refine ⟨by omega, ?_, ?_⟩
    · intro hr; simp [formatStudyTime, h0, hlt, hr]
    · intro hr; simp [formatStudyTime, h0, hlt, hr]

/-- Witness for C10 at 30, 120 and 125 minutes. -/
theorem formatStudyTime_decomposition_witness :
    formatStudyTime (some 30) = toString (30 : Int) ++ " min"
    ∧ formatStudyTime (some 120) = toString ((120 : Int) / 60) ++ "h"
    ∧ formatStudyTime (some 125)
      = toString ((125 : Int) / 60) ++ "h " ++ toString ((125 : Int) % 60) ++ "m" := by
  obtain ⟨-, -, h3, h4⟩ := formatStudyTime_decomposition
  exact ⟨h3 30 (by decide) (by decide),
         (h4 120 (by decide)).2.1 (by decide),
         (h4 125 (by decide)).2.2 (by decide)⟩
